import Mathlib

/-
Verification development for the EventosLast repository
(src/flow_events.py and src/01EventosPast.py).

The Python source is shallowly embedded: pure helpers become Lean
functions on String/List Char; the filesystem-backed EventStreamer
becomes explicit state passing over a StreamerState record; the
Selenium-driven control flow (login retry loop, pagination loop) is
embedded as functions over abstract environment streams that supply
the observations the driver would return.  BeautifulSoup documents
are modelled as flat lists of nodes in document order; `find` /
`find_all` become the first / all elements satisfying the translated
predicate.
-/

-- ============================ string utilities ============================

/-- Does `pat` occur as a contiguous subsequence of the second list? -/
def containsSeq (pat : List Char) : List Char → Bool
  | [] => pat.isEmpty
  | c :: rest => pat.isPrefixOf (c :: rest) || containsSeq pat rest

/-- Python `pat in s` (substring containment). -/
def strContains (s pat : String) : Bool := containsSeq pat.toList s.toList

/-- Drop characters satisfying `p` from both ends of a character list
(the core of Python `str.strip`). -/
def stripEndsBy (p : Char → Bool) (l : List Char) : List Char :=
  ((l.dropWhile p).reverse.dropWhile p).reverse

/-- Whitespace stripped by Python `str.strip()` with no arguments. -/
def pyWsChars : List Char := [' ', '\t', '\n', '\r', '\x0b', '\x0c']

/-- Python `s.strip()`; also models BeautifulSoup `get_text(strip=True)`
on a node holding a single text fragment. -/
def pyStrip (s : String) : String :=
  String.mk (stripEndsBy (fun c => pyWsChars.contains c) s.toList)

/-- Space or tab, the character class of the regex `[ \t]+` in `_clean`. -/
def isSpTab (c : Char) : Bool := c == ' ' || c == '\t'

/-- Embedding of `re.sub(r"[ \t]+", " ", s)`: every maximal run of
spaces/tabs becomes a single space. -/
def collapseWs : List Char → List Char
  | [] => []
  | [c] => if isSpTab c then [' '] else [c]
  | c :: d :: rest =>
    if isSpTab c then
      if isSpTab d then collapseWs (d :: rest)
      else ' ' :: collapseWs (d :: rest)
    else c :: collapseWs (d :: rest)

/-- The character set of `_clean`'s final `strip(" \t\r\n-•*·:;")`. -/
def cleanChars : List Char := [' ', '\t', '\r', '\n', '-', '•', '*', '·', ':', ';']

/-- Embedding of `_clean` from src/flow_events.py lines 89-95.
NFKC normalization (`unicodedata.normalize("NFKC", s)`) is modelled as
the identity function: it is the identity on the ASCII and flag-glyph
strings appearing in this development.  The empty-string guard mirrors
Python `if not s: return ""`. -/
def _clean (s : String) : String :=
  if s == "" then ""
  else String.mk (stripEndsBy (fun c => cleanChars.contains c) (collapseWs s.toList))

/-- Fuel-driven worker for `pyReplace`.  Each step either copies one
character or consumes a full (non-empty) occurrence of `pat`, so fuel
equal to the input length never runs out. -/
def replaceFuel (pat rep : List Char) : Nat → List Char → List Char
  | 0, l => l
  | _ + 1, [] => []
  | fuel + 1, c :: rest =>
    if pat.isPrefixOf (c :: rest) && !pat.isEmpty then
      rep ++ replaceFuel pat rep fuel ((c :: rest).drop pat.length)
    else
      c :: replaceFuel pat rep fuel rest

/-- Python `s.replace(pat, rep)`: leftmost, non-overlapping replacement
of every occurrence (for non-empty `pat`, the only case the source
uses: `event_id.replace('event-card-', '')`). -/
def pyReplace (s pat rep : String) : String :=
  String.mk (replaceFuel pat.toList rep.toList s.toList.length s.toList)

/-- Prefix test on strings via character lists. -/
def startsWithL (s pre : String) : Bool := pre.toList.isPrefixOf s.toList

/-- The fixed base origin `BASE` from both source files. -/
def BASE : String := "https://www.flowagility.com"

/-- Modelled from the source's calls `urljoin(BASE, href)`
(urllib.parse.urljoin with BASE as the base URL, which has no path):
absolute URLs pass through, root-relative and relative hrefs are
resolved against the base origin.  This simplified model is exact for
the absolute and root-relative hrefs the target site serves. -/
def urljoin (base url : String) : String :=
  if strContains url "://" then url
  else if url == "" then base
  else if startsWithL url "/" then base ++ url
  else base ++ "/" ++ url

-- ============================ DOM model ============================

/-- One element of a parsed document: tag name, class tokens, the text
`get_text()` would return, and the `href` / `id` attributes when
present. -/
structure HNode where
  tag : String
  cls : List String
  text : String
  href : Option String := none
  idAttr : Option String := none
deriving DecidableEq, Repr

/-- BeautifulSoup `class_=sel` matching: a selector containing a space
is compared against the full class attribute string, a single token is
matched against the element's class list (class is multi-valued). -/
def classMatch (sel : String) (classes : List String) : Bool :=
  if strContains sel " " then String.intercalate " " classes == sel
  else classes.contains sel

/-- `soup.find(tag, pred)`: first node in document order with the given
tag satisfying `p`. -/
def findTag (nodes : List HNode) (t : String) (p : HNode → Bool) : Option HNode :=
  nodes.find? (fun n => n.tag == t && p n)

/-- `soup.find_all(tag, pred)`: all nodes in document order with the
given tag satisfying `p`. -/
def filterTag (nodes : List HNode) (t : String) (p : HNode → Bool) : List HNode :=
  nodes.filter (fun n => n.tag == t && p n)

/-- `href=lambda x: x and pat in x`: the attribute must be present,
non-empty and contain `pat` (an absent or empty href contains no
non-empty pattern, so `getD ""` is equivalent). -/
def hrefContains (pat : String) (n : HNode) : Bool :=
  strContains (n.href.getD "") pat

/-- One event container as consumed by the streaming extractor in
src/flow_events.py: the root element's id attribute plus all descendant
nodes in document order. -/
structure Container where
  idAttr : Option String := none
  nodes : List HNode := []
deriving Repr

-- ============================ record model ============================

/-- The `ev['enlaces']` sub-dictionary. -/
structure Enlaces where
  info : Option String := none
  participantes : Option String := none
  runs : Option String := none
deriving DecidableEq, Repr

/-- An extracted event record.  Every key the two Python extractors can
set is a field; `none` means the dictionary key is absent.  `enlaces`
is not optional because both extractors unconditionally create the
`'enlaces'` key. -/
structure EventRecord where
  id : Option String := none
  nombre : Option String := none
  fechas : Option String := none
  organizacion : Option String := none
  club : Option String := none
  lugar : Option String := none
  enlaces : Enlaces := {}
  estado : Option String := none
  estado_tipo : Option String := none
  pais_bandera : Option String := none
  tipo : Option String := none
deriving DecidableEq, Repr

/-- Count 1 when an optional field (a dictionary key) is present. -/
def optNat (o : Option String) : Nat :=
  match o with
  | some _ => 1
  | none => 0

/-- Number of keys in the record's dictionary.  The constant `1` counts
the `'enlaces'` key, which both extractors always create (even empty). -/
def fieldCount (r : EventRecord) : Nat :=
  optNat r.id + optNat r.nombre + optNat r.fechas + optNat r.organizacion +
  optNat r.club + optNat r.lugar + 1 + optNat r.estado + optNat r.estado_tipo +
  optNat r.pais_bandera + optNat r.tipo

-- ================= streaming extractor (src/flow_events.py 401-456) =================

/-- Lines 404-406: `event_id = c.get('id', ''); if event_id:
ev['id'] = event_id.replace('event-card-', '')`. -/
def flowId (c : Container) : Option String :=
  let event_id := c.idAttr.getD ""
  if event_id == "" then none else some (pyReplace event_id "event-card-" "")

/-- Lines 408-410: first div with the exact compound name class, text
cleaned with `_clean`. -/
def flowNombre (c : Container) : Option String :=
  (findTag c.nodes "div" (fun n => classMatch "font-caption text-lg text-black truncate -mt-1" n.cls)).map
    (fun n => _clean n.text)

/-- Lines 412-414: first div carrying the `text-xs` class token. -/
def flowFechas (c : Container) : Option String :=
  (findTag c.nodes "div" (fun n => classMatch "text-xs" n.cls)).map (fun n => _clean n.text)

/-- Lines 416-418: second element (when present) of `find_all('div', 'text-xs')`. -/
def flowOrganizacion (c : Container) : Option String :=
  ((filterTag c.nodes "div" (fun n => classMatch "text-xs" n.cls))[1]?).map
    (fun n => _clean n.text)

/-- Lines 424-427 fallback scan: the first `text-xs` div whose cleaned
text is non-empty and contains neither a slash nor a known country name. -/
def flowClubFallback : List HNode → Option String
  | [] => none
  | d :: rest =>
    let t := _clean d.text
    if t != "" && !strContains t "/" && !strContains t "Spain" && !strContains t "España"
    then some t
    else flowClubFallback rest

/-- Lines 420-427: specific club selector first, else the fallback scan. -/
def flowClub (c : Container) : Option String :=
  match findTag c.nodes "div" (fun n => classMatch "text-xs mb-0.5 mt-0.5" n.cls) with
  | some n => some (_clean n.text)
  | none => flowClubFallback (filterTag c.nodes "div" (fun n => classMatch "text-xs" n.cls))

/-- Lines 430-433 first pass: slash plus a known country/city token. -/
def flowLugarPass1 : List HNode → Option String
  | [] => none
  | d :: rest =>
    let t := _clean d.text
    if strContains t "/" &&
       (strContains t "Spain" || strContains t "España" || strContains t "Madrid" ||
        strContains t "Barcelona")
    then some t
    else flowLugarPass1 rest

/-- Lines 434-438 second pass: slash-containing text under 100 characters. -/
def flowLugarPass2 : List HNode → Option String
  | [] => none
  | d :: rest =>
    let t := _clean d.text
    if strContains t "/" && t.length < 100 then some t else flowLugarPass2 rest

/-- Lines 429-438: first pass over the `text-xs` divs, then the fallback pass. -/
def flowLugar (c : Container) : Option String :=
  match flowLugarPass1 (filterTag c.nodes "div" (fun n => classMatch "text-xs" n.cls)) with
  | some t => some t
  | none => flowLugarPass2 (filterTag c.nodes "div" (fun n => classMatch "text-xs" n.cls))

/-- Lines 441-443: first anchor whose href contains `/info/`. -/
def flowInfoLink (c : Container) : Option String :=
  (findTag c.nodes "a" (hrefContains "/info/")).map (fun n => urljoin BASE (n.href.getD ""))

/-- Predicate of line 445: anchors whose href contains `/participants`
or `/participantes`. -/
def partAnchorPred (n : HNode) : Bool :=
  hrefContains "/participants" n || hrefContains "/participantes" n

/-- Lines 446-449 loop body: the first collected anchor whose href
contains `/participants_list` or `/participantes`, resolved. -/
def pickParticipant : List HNode → Option String
  | [] => none
  | lk :: rest =>
    let href := lk.href.getD ""
    if strContains href "/participants_list" || strContains href "/participantes"
    then some (urljoin BASE href)
    else pickParticipant rest

/-- Lines 445-451: scan the participant anchors; if none matched and the
id field is known, synthesize the canonical participants URL. -/
def flowParticipantes (c : Container) (idField : Option String) : Option String :=
  match pickParticipant (filterTag c.nodes "a" partAnchorPred) with
  | some u => some u
  | none =>
    match idField with
    | some i => some (BASE ++ "/zone/events/" ++ i ++ "/participants_list")
    | none => none

/-- Lines 453-454: flag div text, defaulting to the fixed glyph. -/
def flowPaisBandera (c : Container) : String :=
  match findTag c.nodes "div" (fun n => classMatch "text-md" n.cls) with
  | some n => _clean n.text
  | none => "🇪🇸"

/-- Embedding of the per-container body of `extract_events`
(src/flow_events.py lines 401-456): builds the streamed record `ev`.
Fields the streaming extractor never sets (estado, estado_tipo, tipo,
enlaces.runs) are absent. -/
def flowExtract (c : Container) : EventRecord :=
  let idf := flowId c
  { id := idf
    nombre := flowNombre c
    fechas := flowFechas c
    organizacion := flowOrganizacion c
    club := flowClub c
    lugar := flowLugar c
    enlaces := { info := flowInfoLink c, participantes := flowParticipantes c idf, runs := none }
    estado := none
    estado_tipo := none
    pais_bandera := some (flowPaisBandera c)
    tipo := none }

-- ================= pagination extractor (src/01EventosPast.py 201-278) =================

/-- A document as consumed by `extract_event_details`: the flat node
list in document order, plus the contents of
`soup.find('div', class_='relative flex flex-col w-full pt-1 pb-6 mb-4
border-b border-gray-300')` when that info div exists.  The info div's
descendants are carried separately because the flat list does not
retain the nesting that scopes the info-field searches. -/
structure PastDoc where
  infoDiv : Option (List HNode) := none
  nodes : List HNode := []
deriving Repr

/-- Lines 208-210: `soup.find('div', class_='group mb-6')`, then
`event_container.get('id', '')` (the key is set even when the attribute
is missing, as the empty string). -/
def pastId (d : PastDoc) : Option String :=
  (findTag d.nodes "div" (fun n => classMatch "group mb-6" n.cls)).map
    (fun n => n.idAttr.getD "")

/-- Lines 216-218: first `text-xs` div inside the info div. -/
def pastFechas (d : PastDoc) : Option String :=
  match d.infoDiv with
  | none => none
  | some info =>
    ((filterTag info "div" (fun n => classMatch "text-xs" n.cls)).head?).map
      (fun n => pyStrip n.text)

/-- Lines 221-222: second `text-xs` div inside the info div. -/
def pastOrganizacion (d : PastDoc) : Option String :=
  match d.infoDiv with
  | none => none
  | some info =>
    ((filterTag info "div" (fun n => classMatch "text-xs" n.cls))[1]?).map
      (fun n => pyStrip n.text)

/-- Lines 225-227: name div inside the info div, text stripped (but not
collapsed: `get_text(strip=True)` only trims ends). -/
def pastNombre (d : PastDoc) : Option String :=
  match d.infoDiv with
  | none => none
  | some info =>
    (findTag info "div" (fun n => classMatch "font-caption text-lg text-black truncate -mt-1" n.cls)).map
      (fun n => pyStrip n.text)

/-- Lines 230-232: club div inside the info div. -/
def pastClub (d : PastDoc) : Option String :=
  match d.infoDiv with
  | none => none
  | some info =>
    (findTag info "div" (fun n => classMatch "text-xs mb-0.5 mt-0.5" n.cls)).map
      (fun n => pyStrip n.text)

/-- Lines 236-240 loop: first `text-xs` div whose stripped text has a
slash and a country token. -/
def pastLugarScan : List HNode → Option String
  | [] => none
  | n :: rest =>
    let t := pyStrip n.text
    if strContains t "/" && (strContains t "Spain" || strContains t "España")
    then some t
    else pastLugarScan rest

/-- Lines 234-240: the location scan over the info div's `text-xs` divs. -/
def pastLugar (d : PastDoc) : Option String :=
  match d.infoDiv with
  | none => none
  | some info => pastLugarScan (filterTag info "div" (fun n => classMatch "text-xs" n.cls))

/-- Lines 243-254: status badge text and its classification; when no
badge exists the record defaults to a finished past event. -/
def pastEstado (d : PastDoc) : String × String :=
  match findTag d.nodes "div"
      (fun n => classMatch "py-1 px-4 border text-white font-bold rounded text-sm" n.cls) with
  | some n =>
    let e := pyStrip n.text
    (e, if strContains e "Finalizado" || strContains e "Completado"
        then "finalizado" else "desconocido")
  | none => ("Finalizado", "finalizado")

/-- Lines 258-260: first anchor whose href contains `/info/`. -/
def pastInfoLink (d : PastDoc) : Option String :=
  (findTag d.nodes "a" (hrefContains "/info/")).map (fun n => urljoin BASE (n.href.getD ""))

/-- Lines 262-264: first anchor whose href contains `/participants_list`. -/
def pastParticipantsLink (d : PastDoc) : Option String :=
  (findTag d.nodes "a" (hrefContains "/participants_list")).map
    (fun n => urljoin BASE (n.href.getD ""))

/-- Lines 266-268: first anchor whose href contains `/runs`. -/
def pastRunsLink (d : PastDoc) : Option String :=
  (findTag d.nodes "a" (hrefContains "/runs")).map (fun n => urljoin BASE (n.href.getD ""))

/-- Lines 271-273: flag div text; the key is absent when no such div
exists (unlike the streaming extractor, there is no default glyph). -/
def pastFlag (d : PastDoc) : Option String :=
  (findTag d.nodes "div" (fun n => classMatch "text-md" n.cls)).map (fun n => pyStrip n.text)

/-- Embedding of `extract_event_details` (src/01EventosPast.py lines
201-278).  The id keeps the `event-card-` prefix (no stripping in this
extractor), estado/estado_tipo are always present via the no-badge
default, and `tipo` is always `'pasado'`. -/
def extract_event_details (d : PastDoc) : EventRecord :=
  { id := pastId d
    nombre := pastNombre d
    fechas := pastFechas d
    organizacion := pastOrganizacion d
    club := pastClub d
    lugar := pastLugar d
    enlaces := { info := pastInfoLink d
                 participantes := pastParticipantsLink d
                 runs := pastRunsLink d }
    estado := some (pastEstado d).1
    estado_tipo := some (pastEstado d).2
    pais_bandera := pastFlag d
    tipo := some "pasado" }

-- ================= stream sink (src/flow_events.py 280-366) =================

/-- Outcome of running the uploader command inside `_safe_run`:
`subprocess.run` either completes with a return code or the call raises. -/
inductive RunOutcome
  | completed (returncode : Int)
  | raised (msg : String)
deriving DecidableEq, Repr

/-- Result of `_safe_run`: the integer it returns to its caller plus
whether it printed a warning. -/
structure SafeRunResult where
  code : Int
  warned : Bool
deriving DecidableEq, Repr

/-- Embedding of `_safe_run` (src/flow_events.py lines 296-304): a
non-zero return code is printed as a warning and returned; an exception
from the subprocess call is caught, printed, and turned into code 1.
No path re-raises. -/
def _safe_run (o : RunOutcome) : SafeRunResult :=
  match o with
  | .completed rc => { code := rc, warned := rc != 0 }
  | .raised _ => { code := 1, warned := true }

/-- State of one `EventStreamer`.  The JSONL log is the list of its
lines; snapshots are the gzip copies taken so far (each a copy of the
log at snapshot time); the publish counters record how many times the
uploader script was invoked for the live stream and for snapshots. -/
structure StreamerState where
  log : List String
  count : Nat
  snapshot_every : Nat
  snapshots : List (List String)
  uploaderExists : Bool
  streamPublishes : Nat
  snapshotPublishes : Nat
deriving Repr

/-- The state built by `EventStreamer.__init__` (src/flow_events.py
lines 307-316): `snapshot_every = max(1, int(snapshot_every))`, counter
zero, and the pre-existing stream file contents (`initialLog`, empty
when the file was just touched). -/
def mkStreamer (snapshot_every : Int) (uploaderExists : Bool) (initialLog : List String) :
    StreamerState :=
  { log := initialLog
    count := 0
    snapshot_every := (max 1 snapshot_every).toNat
    snapshots := []
    uploaderExists := uploaderExists
    streamPublishes := 0
    snapshotPublishes := 0 }

/-- Embedding of `EventStreamer.__init__` including the uploader check
(src/flow_events.py lines 318-324): a missing uploader raises
FileNotFoundError only under `STRICT_MISSING_UPLOADER` (modelled by the
`strict` flag; the source constant is False), otherwise it only prints
and the streamer is constructed. -/
def EventStreamer_init (snapshot_every : Int) (uploaderExists strict : Bool)
    (initialLog : List String) : Except String StreamerState :=
  if !uploaderExists && strict then
    Except.error "Uploader scripts/upload_event.sh no encontrado"
  else
    Except.ok (mkStreamer snapshot_every uploaderExists initialLog)

/-- Embedding of `EventStreamer.add` (src/flow_events.py lines 343-359)
for one already-serialized line: append the line to the log, increment
the counter, publish the live stream when the uploader exists
(`_upload_stream`), and take plus publish a snapshot when the counter
hits a multiple of `snapshot_every`. -/
def EventStreamer_add (s : StreamerState) (line : String) : StreamerState :=
  let log2 := s.log ++ [line]
  let c2 := s.count + 1
  let sp := s.streamPublishes + (if s.uploaderExists then 1 else 0)
  if c2 % s.snapshot_every == 0 then
    { s with log := log2, count := c2, streamPublishes := sp,
             snapshots := s.snapshots ++ [log2],
             snapshotPublishes := s.snapshotPublishes + (if s.uploaderExists then 1 else 0) }
  else
    { s with log := log2, count := c2, streamPublishes := sp }

/-- A sequence of `add` calls, one per line, left to right. -/
def runAdds (s : StreamerState) : List String → StreamerState
  | [] => s
  | l :: rest => runAdds (EventStreamer_add s l) rest

/-- Embedding of `EventStreamer.finish` (src/flow_events.py lines
361-366): unconditionally take one more snapshot of the current log and
publish it when the uploader exists.  The surrounding try/except only
guards filesystem failures, which the model treats as succeeding. -/
def EventStreamer_finish (s : StreamerState) : StreamerState :=
  { s with snapshots := s.snapshots ++ [s.log],
           snapshotPublishes := s.snapshotPublishes + (if s.uploaderExists then 1 else 0) }

-- ================= session manager (src/01EventosPast.py 112-139) =================

/-- Outcome of one `_login(driver, ...)` call in src/01EventosPast.py:
either the final `wait.until` succeeded and `_login` returns, or it
raised (TimeoutException from line 126 propagates out of `_login`,
which has no try/except). -/
inductive LoginAttempt
  | completed
  | timeoutRaised
deriving DecidableEq, Repr

/-- Embedding of `_ensure_logged_in` (src/01EventosPast.py lines
130-139).  `obs t` is the value of `_is_login_page(driver)` at the t-th
check this function performs; `att j` is the outcome of its j-th
`_login` call.  `Except.error` models an uncaught exception escaping to
the caller; `Except.ok b` models a normal return of `b`. -/
def _ensure_logged_in (obs : Nat → Bool) (att : Nat → LoginAttempt) :
    Nat → Nat → Nat → Except String Bool
  | 0, _, _ => Except.ok false
  | tries + 1, t, j =>
    if obs t = false then Except.ok true
    else
      match att j with
      | .timeoutRaised => Except.error "TimeoutException"
      | .completed =>
        if obs (t + 1) = false then Except.ok true
        else _ensure_logged_in obs att tries (t + 2) (j + 1)

-- ================= paginated collector (src/01EventosPast.py 151-199) =================

/-- Primitive actions the pagination loop performs against the driver,
in order.  `authCheck` stands for any call to `_ensure_logged_in` or
`_is_login_page`; it is part of the action alphabet so that its absence
from every trace is expressible. -/
inductive PageAction
  | scroll
  | extractPage (containers : Nat)
  | clickNext
  | waitContent
  | authCheck
deriving BEq, DecidableEq, Repr

/-- How the attempt to reach the next page ends for a given page index:
the next control is found, clicked and the new content appears (`ok`);
the wait for the control or for the new content raises
TimeoutException / NoSuchElementException (`notFoundOrTimeout`, the
`break` on line 192); or some other exception is caught (`otherError`,
the `break` on line 195). -/
inductive NextOutcome
  | ok
  | notFoundOrTimeout
  | otherError
deriving DecidableEq, Repr

/-- Result of a pagination run: total containers extracted, pages
processed, and the trace of driver actions. -/
structure PagRun where
  events : Nat
  pagesDone : Nat
  trace : List PageAction
deriving Repr

/-- Embedding of the `while page_count < max_pages` loop of
`_handle_pagination` (src/01EventosPast.py lines 157-197).  `pages i`
is the number of event containers the i-th page's parsed HTML yields;
`nxt i` is how the next-page attempt after the i-th page ends.  The
fuel argument is `max_pages - page_count`, so the structural recursion
is exactly the loop's counter guard. -/
def _handle_pagination_loop (pages : Nat → Nat) (nxt : Nat → NextOutcome) :
    Nat → Nat → PagRun
  | 0, _ => { events := 0, pagesDone := 0, trace := [] }
  | fuel + 1, i =>
    let n := pages i
    match nxt i with
    | .ok =>
      let r := _handle_pagination_loop pages nxt fuel (i + 1)
      { events := n + r.events
        pagesDone := r.pagesDone + 1
        trace := [PageAction.scroll, PageAction.extractPage n,
                  PageAction.clickNext, PageAction.waitContent] ++ r.trace }
    | .notFoundOrTimeout =>
      { events := n, pagesDone := 1, trace := [PageAction.scroll, PageAction.extractPage n] }
    | .otherError =>
      { events := n, pagesDone := 1, trace := [PageAction.scroll, PageAction.extractPage n] }

/-- The `max_pages = 50` safety ceiling (src/01EventosPast.py line 155). -/
def max_pages : Nat := 50

/-- Embedding of `_handle_pagination` (src/01EventosPast.py lines
151-199): run the page loop from page 0 with the configured ceiling. -/
def _handle_pagination (pages : Nat → Nat) (nxt : Nat → NextOutcome) : PagRun :=
  _handle_pagination_loop pages nxt max_pages 0

-- ============================ concrete inputs ============================

/-- The name node of the §8 scenario: exact compound class, raw text
with leading, trailing and doubled inner spaces. -/
def nameNodeC4 : HNode :=
  { tag := "div"
    cls := ["font-caption", "text-lg", "text-black", "truncate", "-mt-1"]
    text := "  Spring  Trial  " }

/-- The status badge node of the §8 scenario. -/
def statusNodeC4 : HNode :=
  { tag := "div"
    cls := ["py-1", "px-4", "border", "text-white", "font-bold", "rounded", "text-sm"]
    text := "Finalizado" }

/-- The root `group mb-6` div of the §8 scenario with its id attribute. -/
def rootNodeC4 : HNode :=
  { tag := "div", cls := ["group", "mb-6"], text := "", idAttr := some "event-card-abc123" }

/-- The §8 scenario container as the streaming extractor sees it. -/
def c4flow : Container :=
  { idAttr := some "event-card-abc123", nodes := [nameNodeC4, statusNodeC4] }

/-- The §8 scenario markup as `extract_event_details` sees it: the name
node sits inside the info div, the status badge at document level. -/
def c4past : PastDoc :=
  { infoDiv := some [nameNodeC4], nodes := [rootNodeC4, nameNodeC4, statusNodeC4] }

/-- A container markup in which no recognized node is present (no nodes
at all, no id attribute). -/
def emptyContainer : Container := { idAttr := none, nodes := [] }

/-- The same empty markup for the pagination extractor. -/
def emptyPastDoc : PastDoc := { infoDiv := none, nodes := [] }

/-- Six serialized lines, a concrete 3 * 2 append sequence. -/
def sixLines : List String := ["a", "b", "c", "d", "e", "f"]

-- ============================ helper lemmas ============================

lemma succ_div_sub (c e : Nat) :
    (c + 1) / e - c / e = if (c + 1) % e = 0 then 1 else 0 := by
  have h1 := Nat.succ_div c e
  simp only [Nat.dvd_iff_mod_eq_zero] at h1
  have h2 : c / e ≤ (c + 1) / e := Nat.div_le_div_right (by omega)
  by_cases h : (c + 1) % e = 0 <;> simp [h] at h1 ⊢ <;> omega

lemma add_spec (s : StreamerState) (l : String) :
    (EventStreamer_add s l).log = s.log ++ [l] ∧
    (EventStreamer_add s l).count = s.count + 1 ∧
    (EventStreamer_add s l).snapshot_every = s.snapshot_every ∧
    (EventStreamer_add s l).uploaderExists = s.uploaderExists ∧
    (EventStreamer_add s l).snapshots.length
      = s.snapshots.length + (if (s.count + 1) % s.snapshot_every = 0 then 1 else 0) ∧
    (EventStreamer_add s l).streamPublishes
      = s.streamPublishes + (if s.uploaderExists then 1 else 0) ∧
    (EventStreamer_add s l).snapshotPublishes
      = s.snapshotPublishes
        + (if s.uploaderExists then
            (if (s.count + 1) % s.snapshot_every = 0 then 1 else 0) else 0) := by
  unfold EventStreamer_add
  by_cases h : (s.count + 1) % s.snapshot_every = 0 <;>
    by_cases hu : s.uploaderExists <;>
      simp [h, hu]

lemma runAdds_spec (lines : List String) : ∀ s : StreamerState,
    (runAdds s lines).log = s.log ++ lines ∧
    (runAdds s lines).count = s.count + lines.length ∧
    (runAdds s lines).snapshot_every = s.snapshot_every ∧
    (runAdds s lines).uploaderExists = s.uploaderExists ∧
    (runAdds s lines).snapshots.length
      = s.snapshots.length
        + ((s.count + lines.length) / s.snapshot_every - s.count / s.snapshot_every) ∧
    (runAdds s lines).streamPublishes
      = s.streamPublishes + (if s.uploaderExists then lines.length else 0) ∧
    (runAdds s lines).snapshotPublishes
      = s.snapshotPublishes
        + (if s.uploaderExists then
            ((s.count + lines.length) / s.snapshot_every - s.count / s.snapshot_every) else 0) := by
  induction lines with
  | nil => intro s; simp [runAdds]
  | cons l rest ih =>
    intro s
    obtain ⟨a1, a2, a3, a4, a5, a6, a7⟩ := add_spec s l
    obtain ⟨h1, h2, h3, h4, h5, h6, h7⟩ := ih (EventStreamer_add s l)
    have hrw : s.count + (rest.length + 1) = s.count + 1 + rest.length := by omega
    have hsd := succ_div_sub s.count s.snapshot_every
    have hle1 : s.count / s.snapshot_every ≤ (s.count + 1) / s.snapshot_every :=
      Nat.div_le_div_right (by omega)
    have hle2 : (s.count + 1) / s.snapshot_every
        ≤ (s.count + 1 + rest.length) / s.snapshot_every :=
      Nat.div_le_div_right (by omega)
    refine ⟨?_, ?_, ?_, ?_, ?_, ?_, ?_⟩
    · show (runAdds (EventStreamer_add s l) rest).log = s.log ++ l :: rest
      rw [h1, a1]; simp
    · show (runAdds (EventStreamer_add s l) rest).count = s.count + (l :: rest).length
      rw [h2, a2]; simp; omega
    · show (runAdds (EventStreamer_add s l) rest).snapshot_every = s.snapshot_every
      rw [h3, a3]
    · show (runAdds (EventStreamer_add s l) rest).uploaderExists = s.uploaderExists
      rw [h4, a4]
    · show (runAdds (EventStreamer_add s l) rest).snapshots.length
        = s.snapshots.length
          + ((s.count + (l :: rest).length) / s.snapshot_every
             - s.count / s.snapshot_every)
      rw [h5, a5, a2, a3]
      simp only [List.length_cons]
      rw [hrw]
      omega
    · show (runAdds (EventStreamer_add s l) rest).streamPublishes
        = s.streamPublishes + (if s.uploaderExists then (l :: rest).length else 0)
      rw [h6, a6, a4]
      by_cases hu : s.uploaderExists <;> (simp [hu]; try omega)
    · show (runAdds (EventStreamer_add s l) rest).snapshotPublishes
        = s.snapshotPublishes
          + (if s.uploaderExists then
              ((s.count + (l :: rest).length) / s.snapshot_every
               - s.count / s.snapshot_every) else 0)
      rw [h7, a7, a2, a3, a4]
      simp only [List.length_cons]
      rw [hrw]
      by_cases hu : s.uploaderExists <;> (simp [hu]; try omega)

-- ============================ claim theorems ============================

/-- C1: with a positive snapshot cadence k, after exactly m*k appends
exactly m snapshots have been produced, and `finish()` produces exactly
one more snapshot from any state, regardless of alignment. -/
theorem C1_snapshot_cadence (k m : Nat) (up : Bool) (lg lines : List String)
    (hk : 0 < k) (hlen : lines.length = m * k) :
    (runAdds (mkStreamer (k : Int) up lg) lines).snapshots.length = m ∧
    (EventStreamer_finish (runAdds (mkStreamer (k : Int) up lg) lines)).snapshots.length
      = m + 1 ∧
    ∀ t : StreamerState, (EventStreamer_finish t).snapshots.length
      = t.snapshots.length + 1 := by
  have he : (mkStreamer (k : Int) up lg).snapshot_every = k := by
    simp only [mkStreamer]
    omega
  have h := (runAdds_spec lines (mkStreamer (k : Int) up lg)).2.2.2.2.1
  rw [he] at h
  have hc : (mkStreamer (k : Int) up lg).count = 0 := rfl
  have hs : (mkStreamer (k : Int) up lg).snapshots = [] := rfl
  rw [hc, hs, hlen] at h
  simp only [List.length_nil, Nat.zero_add, Nat.zero_div, Nat.sub_zero] at h
  rw [Nat.mul_div_cancel m hk] at h
  refine ⟨h, ?_, fun t => by simp [EventStreamer_finish]⟩
  simp [EventStreamer_finish, h]

/-- Witness for C1 at k = 2, m = 3 on a concrete six-line append
sequence. -/
theorem C1_snapshot_cadence_witness :
    0 < 2 ∧ sixLines.length = 3 * 2 ∧
    (runAdds (mkStreamer ((2 : Nat) : Int) false []) sixLines).snapshots.length = 3 ∧
    (EventStreamer_finish
      (runAdds (mkStreamer ((2 : Nat) : Int) false []) sixLines)).snapshots.length
      = 3 + 1 := by
  have h := C1_snapshot_cadence 2 3 false [] sixLines (by decide) (by decide)
  exact ⟨by decide, by decide, h.1, h.2.1⟩

/-- C2: every call to add appends exactly one line at the end of the
log and changes nothing before it, so after any sequence of N appends
(duplicates included) the log is the old log followed by exactly those
N lines; from an empty log its length is exactly N. -/
theorem C2_append_only (s : StreamerState) (lines : List String) :
    (runAdds s lines).log = s.log ++ lines ∧
    (runAdds s lines).log.length = s.log.length + lines.length ∧
    ∀ (k : Int) (up : Bool), (runAdds (mkStreamer k up []) lines).log.length
      = lines.length := by
  refine ⟨(runAdds_spec lines s).1, ?_, ?_⟩
  · rw [(runAdds_spec lines s).1]; simp
  · intro k up
    rw [(runAdds_spec lines (mkStreamer k up [])).1]
    simp [mkStreamer]

/-- C9: `_safe_run` returns in every case (completion and exception
alike) and warns exactly when the returned status is non-zero; a
missing uploader aborts construction only in strict mode, and with the
uploader missing the streamer still appends every line locally while
invoking the publish step zero times. -/
theorem C9_publish_failures_logged (o : RunOutcome) (k : Int) (lg lines : List String) :
    (_safe_run o).warned = ((_safe_run o).code != 0) ∧
    EventStreamer_init k false false lg = Except.ok (mkStreamer k false lg) ∧
    EventStreamer_init k false true lg
      = Except.error "Uploader scripts/upload_event.sh no encontrado" ∧
    EventStreamer_init k true true lg = Except.ok (mkStreamer k true lg) ∧
    (runAdds (mkStreamer k false lg) lines).log = lg ++ lines ∧
    (runAdds (mkStreamer k false lg) lines).streamPublishes = 0 ∧
    (runAdds (mkStreamer k false lg) lines).snapshotPublishes = 0 := by
  refine ⟨?_, rfl, rfl, rfl, ?_, ?_, ?_⟩
  · cases o <;> rfl
  · exact (runAdds_spec lines (mkStreamer k false lg)).1
  · have h := (runAdds_spec lines (mkStreamer k false lg)).2.2.2.2.2.1
    simpa [mkStreamer] using h
  · have h := (runAdds_spec lines (mkStreamer k false lg)).2.2.2.2.2.2
    simpa [mkStreamer] using h

/-- C10: for every integer cadence, including zero and negative values,
the effective snapshot_every is clamped to at least 1 at construction,
and every append makes progress: after n appends the snapshot count is
exactly n divided by the clamped cadence. -/
theorem C10_cadence_clamped (k : Int) (up : Bool) (lg lines : List String) :
    0 < (mkStreamer k up lg).snapshot_every ∧
    (mkStreamer k up lg).snapshot_every = (max 1 k).toNat ∧
    (runAdds (mkStreamer k up lg) lines).snapshots.length
      = lines.length / (max 1 k).toNat := by
  refine ⟨?_, rfl, ?_⟩
  · simp only [mkStreamer]
    omega
  · have h := (runAdds_spec lines (mkStreamer k up lg)).2.2.2.2.1
    simpa [mkStreamer] using h

lemma findTag_none (nodes : List HNode) (t : String) (p : HNode → Bool)
    (h : ∀ n ∈ nodes, n.tag ≠ t) : findTag nodes t p = none := by
  unfold findTag
  rw [List.find?_eq_none]
  intro n hn
  simp [h n hn]

lemma filterTag_nil (nodes : List HNode) (t : String) (p : HNode → Bool)
    (h : ∀ n ∈ nodes, n.tag ≠ t) : filterTag nodes t p = [] := by
  unfold filterTag
  rw [List.filter_eq_nil_iff]
  intro n hn
  simp [h n hn]

/-- C3 counterexample: on a container markup with no recognized node,
neither extractor returns a record with zero fields — the streaming
extractor still creates the `enlaces` key and the default flag (2
fields), and the pagination extractor creates `enlaces`, the default
status pair and the type tag (4 fields). -/
theorem C3_counterexample :
    fieldCount (flowExtract emptyContainer) = 2 ∧
    fieldCount (extract_event_details emptyPastDoc) = 4 ∧
    (fieldCount (flowExtract emptyContainer) == 0) = false ∧
    (fieldCount (extract_event_details emptyPastDoc) == 0) = false :=
  ⟨rfl, rfl, rfl, rfl⟩

/-- C3 amended: both extractors are total functions of the container
markup, and on a container in which no recognized node is present every
rule-located field is absent; the record is not empty but consists of
exactly the initialized defaults (the empty links mapping plus the
default flag for the streaming extractor; the empty links mapping, the
default finished status pair and the type tag for the pagination
extractor). -/
theorem C3_amended (c : Container) (d : PastDoc)
    (hid : c.idAttr.getD "" = "")
    (hcdiv : ∀ n ∈ c.nodes, n.tag ≠ "div")
    (hca : ∀ n ∈ c.nodes, n.tag ≠ "a")
    (hinfo : d.infoDiv = none)
    (hddiv : ∀ n ∈ d.nodes, n.tag ≠ "div")
    (hda : ∀ n ∈ d.nodes, n.tag ≠ "a") :
    flowExtract c = { enlaces := {}, pais_bandera := some "🇪🇸" } ∧
    fieldCount (flowExtract c) = 2 ∧
    extract_event_details d
      = { enlaces := {}, estado := some "Finalizado",
          estado_tipo := some "finalizado", tipo := some "pasado" } ∧
    fieldCount (extract_event_details d) = 4 := by
  have hcd : ∀ p, findTag c.nodes "div" p = none := fun p => findTag_none _ _ p hcdiv
  have hcda : ∀ p, findTag c.nodes "a" p = none := fun p => findTag_none _ _ p hca
  have hcf : ∀ p, filterTag c.nodes "div" p = [] := fun p => filterTag_nil _ _ p hcdiv
  have hcfa : ∀ p, filterTag c.nodes "a" p = [] := fun p => filterTag_nil _ _ p hca
  have hdd : ∀ p, findTag d.nodes "div" p = none := fun p => findTag_none _ _ p hddiv
  have hdda : ∀ p, findTag d.nodes "a" p = none := fun p => findTag_none _ _ p hda
  have f1 : flowId c = none := by unfold flowId; simp [hid]
  have hflow : flowExtract c = { enlaces := {}, pais_bandera := some "🇪🇸" } := by
    simp [flowExtract, f1, flowNombre, flowFechas, flowOrganizacion, flowClub,
          flowClubFallback, flowLugar, flowLugarPass1, flowLugarPass2, flowInfoLink,
          flowParticipantes, pickParticipant, flowPaisBandera, hcd, hcda, hcf, hcfa]
  have hpast : extract_event_details d
      = { enlaces := {}, estado := some "Finalizado",
          estado_tipo := some "finalizado", tipo := some "pasado" } := by
    simp [extract_event_details, pastId, pastNombre, pastFechas, pastOrganizacion,
          pastClub, pastLugar, pastEstado, pastInfoLink, pastParticipantsLink,
          pastRunsLink, pastFlag, hinfo, hdd, hdda]
  exact ⟨hflow, by rw [hflow]; rfl, hpast, by rw [hpast]; rfl⟩

/-- Witness for C3 amended at the concrete empty markup. -/
theorem C3_amended_witness :
    emptyContainer.idAttr.getD "" = "" ∧
    emptyPastDoc.infoDiv = none ∧
    flowExtract emptyContainer = { enlaces := {}, pais_bandera := some "🇪🇸" } ∧
    fieldCount (flowExtract emptyContainer) = 2 ∧
    extract_event_details emptyPastDoc
      = { enlaces := {}, estado := some "Finalizado",
          estado_tipo := some "finalizado", tipo := some "pasado" } ∧
    fieldCount (extract_event_details emptyPastDoc) = 4 := by
  have h := C3_amended emptyContainer emptyPastDoc rfl
    (by intro n hn; cases hn) (by intro n hn; cases hn) rfl
    (by intro n hn; cases hn) (by intro n hn; cases hn)
  exact ⟨rfl, rfl, h.1, h.2.1, h.2.2.1, h.2.2.2⟩

/-- C4 counterexample: no single extracted record matches the §8
scenario.  On the scenario markup the streaming extractor (which does
strip the prefix and collapse whitespace) carries no status field at
all, while the pagination extractor (which does produce the status
pair) keeps the `event-card-` prefix on the id and the doubled inner
whitespace in the name. -/
theorem C4_counterexample :
    (flowExtract c4flow).estado = none ∧
    ((extract_event_details c4past).id == some "abc123") = false ∧
    (extract_event_details c4past).id = some "event-card-abc123" ∧
    ((extract_event_details c4past).nombre == some "Spring Trial") = false ∧
    (extract_event_details c4past).nombre = some "Spring  Trial" :=
  ⟨rfl, rfl, rfl, rfl, rfl⟩

/-- C4 amended: on the §8 scenario markup the streaming extractor
yields id "abc123" (prefix stripped) and name "Spring Trial"
(whitespace normalized and collapsed) but no status fields, while the
pagination extractor yields status "Finalizado" classified as
finished ("finalizado") but id "event-card-abc123" (prefix kept) and
name "Spring  Trial" (ends stripped, inner whitespace kept). -/
theorem C4_amended :
    (flowExtract c4flow).id = some "abc123" ∧
    (flowExtract c4flow).nombre = some "Spring Trial" ∧
    (flowExtract c4flow).estado = none ∧
    (flowExtract c4flow).estado_tipo = none ∧
    (extract_event_details c4past).estado = some "Finalizado" ∧
    (extract_event_details c4past).estado_tipo = some "finalizado" ∧
    (extract_event_details c4past).id = some "event-card-abc123" ∧
    (extract_event_details c4past).nombre = some "Spring  Trial" :=
  ⟨rfl, rfl, rfl, rfl, rfl, rfl, rfl, rfl⟩

/-- C5: whenever the container has no participants anchor at all but
the id field was extracted, the streamed record's participants link is
the canonical URL built from the fixed base origin and that id. -/
theorem C5_synthesized_participants (c : Container) (i : String)
    (hnoanchor : filterTag c.nodes "a" partAnchorPred = [])
    (hid : (flowExtract c).id = some i) :
    (flowExtract c).enlaces.participantes
      = some (BASE ++ "/zone/events/" ++ i ++ "/participants_list") := by
  have hfid : flowId c = some i := hid
  show flowParticipantes c (flowId c)
    = some (BASE ++ "/zone/events/" ++ i ++ "/participants_list")
  unfold flowParticipantes
  rw [hnoanchor, hfid]
  rfl

/-- Witness for C5 at the §8 scenario container, which has no anchors. -/
theorem C5_witness :
    filterTag c4flow.nodes "a" partAnchorPred = [] ∧
    (flowExtract c4flow).id = some "abc123" ∧
    (flowExtract c4flow).enlaces.participantes
      = some (BASE ++ "/zone/events/" ++ "abc123" ++ "/participants_list") :=
  ⟨rfl, rfl, C5_synthesized_participants c4flow "abc123" rfl rfl⟩

lemma ensure_ok_of_completed (obs : Nat → Bool) (att : Nat → LoginAttempt)
    (hno : ∀ i, att i = LoginAttempt.completed) :
    ∀ tries t j, ∃ b, _ensure_logged_in obs att tries t j = Except.ok b := by
  intro tries
  induction tries with
  | zero => intro t j; exact ⟨false, rfl⟩
  | succ n ih =>
    intro t j
    simp only [_ensure_logged_in, hno j]
    by_cases h : obs t = false
    · rw [if_pos h]; exact ⟨true, rfl⟩
    · rw [if_neg h]
      by_cases h2 : obs (t + 1) = false
      · rw [if_pos h2]; exact ⟨true, rfl⟩
      · rw [if_neg h2]; exact ih (t + 2) (j + 1)

lemma ensure_false_of_always_login (obs : Nat → Bool) (att : Nat → LoginAttempt)
    (hno : ∀ i, att i = LoginAttempt.completed) (hall : ∀ u, obs u = true) :
    ∀ tries t j, _ensure_logged_in obs att tries t j = Except.ok false := by
  intro tries
  induction tries with
  | zero => intro t j; rfl
  | succ n ih =>
    intro t j
    simp only [_ensure_logged_in, hno j, hall t, hall (t + 1)]
    simpa using ih (t + 2) (j + 1)

/-- C6 counterexample: with the session stuck on the login page, a
timeout raised by the very first login attempt escapes
`_ensure_logged_in` as an exception even though two further attempts
remain, so the timeout is fatal rather than retryable and the function
does not return false. -/
theorem C6_counterexample :
    _ensure_logged_in (fun _ => true) (fun _ => LoginAttempt.timeoutRaised) 3 0 0
      = Except.error "TimeoutException" := rfl

/-- C6 amended: `_ensure_logged_in` retries only attempts whose login
call completes without raising: under such attempts it never raises,
returns success as soon as `isOnLoginPage` is observed false (checking
before each attempt), and returns false only after all maxAttempts
attempts are exhausted; a TimeoutException raised inside a login
attempt instead propagates to the caller (see the counterexample). -/
theorem C6_amended (obs : Nat → Bool) (att : Nat → LoginAttempt) (tries t j : Nat)
    (hno : ∀ i, att i = LoginAttempt.completed) :
    (∃ b, _ensure_logged_in obs att tries t j = Except.ok b) ∧
    (0 < tries → obs t = false → _ensure_logged_in obs att tries t j = Except.ok true) ∧
    ((∀ u, obs u = true) → _ensure_logged_in obs att tries t j = Except.ok false) := by
  refine ⟨ensure_ok_of_completed obs att hno tries t j, ?_, ?_⟩
  · intro hpos hobs
    cases tries with
    | zero => omega
    | succ n =>
      simp only [_ensure_logged_in]
      rw [if_pos hobs]
  · intro hall
    exact ensure_false_of_always_login obs att hno hall tries t j

/-- Witness for C6 amended: a session that stays on the login page
under two completing (non-raising) attempts returns false normally. -/
theorem C6_amended_witness :
    (∃ b, _ensure_logged_in (fun _ => true) (fun _ => LoginAttempt.completed) 2 0 0
      = Except.ok b) ∧
    (0 < 2 → (fun _ : Nat => true) 0 = false →
      _ensure_logged_in (fun _ => true) (fun _ => LoginAttempt.completed) 2 0 0
        = Except.ok true) ∧
    ((∀ u : Nat, (fun _ : Nat => true) u = true) →
      _ensure_logged_in (fun _ => true) (fun _ => LoginAttempt.completed) 2 0 0
        = Except.ok false) :=
  C6_amended (fun _ => true) (fun _ => LoginAttempt.completed) 2 0 0 (fun _ => rfl)

lemma pag_loop_no_auth (pages : Nat → Nat) (nxt : Nat → NextOutcome) :
    ∀ fuel i,
      ((_handle_pagination_loop pages nxt fuel i).trace).count PageAction.authCheck = 0 := by
  intro fuel
  induction fuel with
  | zero => intro i; rfl
  | succ n ih =>
    intro i
    simp only [_handle_pagination_loop]
    cases h : nxt i with
    | ok =>
      simp [List.count_append, List.count_cons, ih (i + 1)]
      exact ⟨⟨⟨rfl, rfl⟩, rfl⟩, rfl⟩
    | notFoundOrTimeout =>
      simp [List.count_cons]
      exact ⟨rfl, rfl⟩
    | otherError =>
      simp [List.count_cons]
      exact ⟨rfl, rfl⟩

/-- C7: the page-advance loop performs no authentication check on any
page transition.  The first conjunct shows that for every environment
the trace of driver actions contains zero authentication checks; the
second evaluates the loop on a concrete two-page run (failing input),
whose full trace is scroll, extract, click-next, wait, scroll, extract
— with no re-verification between the transition and the second
page's extraction. -/
theorem C7_no_reauthentication (pages : Nat → Nat) (nxt : Nat → NextOutcome) :
    ((_handle_pagination pages nxt).trace).count PageAction.authCheck = 0 ∧
    (_handle_pagination (fun _ => 3)
        (fun i => if i == 0 then NextOutcome.ok else NextOutcome.notFoundOrTimeout)).trace
      = [PageAction.scroll, PageAction.extractPage 3, PageAction.clickNext,
         PageAction.waitContent, PageAction.scroll, PageAction.extractPage 3] :=
  ⟨pag_loop_no_auth pages nxt max_pages 0, rfl⟩

lemma pag_loop_pages_le (pages : Nat → Nat) (nxt : Nat → NextOutcome) :
    ∀ fuel i, (_handle_pagination_loop pages nxt fuel i).pagesDone ≤ fuel := by
  intro fuel
  induction fuel with
  | zero => intro i; exact Nat.le_refl 0
  | succ n ih =>
    intro i
    simp only [_handle_pagination_loop]
    cases h : nxt i with
    | ok =>
      simp only []
      have := ih (i + 1)
      simp
      omega
    | notFoundOrTimeout => simp
    | otherError => simp

lemma pag_loop_all_ok (pages : Nat → Nat) (nxt : Nat → NextOutcome)
    (h : ∀ i, nxt i = NextOutcome.ok) :
    ∀ fuel i, (_handle_pagination_loop pages nxt fuel i).pagesDone = fuel := by
  intro fuel
  induction fuel with
  | zero => intro i; rfl
  | succ n ih =>
    intro i
    simp only [_handle_pagination_loop, h i]
    simp [ih (i + 1)]

lemma pag_loop_stop (pages : Nat → Nat) (nxt : Nat → NextOutcome) :
    ∀ d fuel i, d < fuel → nxt (i + d) = NextOutcome.notFoundOrTimeout →
      (∀ m, m < d → nxt (i + m) = NextOutcome.ok) →
      (_handle_pagination_loop pages nxt fuel i).pagesDone = d + 1 := by
  intro d
  induction d with
  | zero =>
    intro fuel i hf hstop _
    cases fuel with
    | zero => omega
    | succ n =>
      have h0 : nxt i = NextOutcome.notFoundOrTimeout := by simpa using hstop
      simp [_handle_pagination_loop, h0]
  | succ dd ih =>
    intro fuel i hf hstop hpre
    cases fuel with
    | zero => omega
    | succ n =>
      have h0 : nxt i = NextOutcome.ok := by
        have := hpre 0 (by omega)
        simpa using this
      have hstop2 : nxt (i + 1 + dd) = NextOutcome.notFoundOrTimeout := by
        rw [show i + 1 + dd = i + (dd + 1) from by omega]
        exact hstop
      have hpre2 : ∀ m, m < dd → nxt (i + 1 + m) = NextOutcome.ok := by
        intro m hm
        rw [show i + 1 + m = i + (m + 1) from by omega]
        exact hpre (m + 1) (by omega)
      have hrec := ih n (i + 1) (by omega) hstop2 hpre2
      simp only [_handle_pagination_loop, h0]
      simp [hrec]

/-- C8: the page-advance loop always terminates within the configured
ceiling of 50 pages: for every environment it processes at most 50
pages; with a next control that is always present and clickable it
processes exactly the 50-page ceiling; and when the next-control search
first fails (not-found or wait timeout) after page j it stops there
normally, returning the collected data. -/
theorem C8_pagination_terminates (pagesA pagesB pagesC : Nat → Nat)
    (nxtA nxtB nxtC : Nat → NextOutcome) (j : Nat)
    (hok : ∀ i, nxtB i = NextOutcome.ok)
    (hj : j < 50)
    (hstop : nxtC j = NextOutcome.notFoundOrTimeout)
    (hpre : ∀ m, m < j → nxtC m = NextOutcome.ok) :
    (_handle_pagination pagesA nxtA).pagesDone ≤ 50 ∧
    (_handle_pagination pagesB nxtB).pagesDone = 50 ∧
    (_handle_pagination pagesC nxtC).pagesDone = j + 1 := by
  refine ⟨pag_loop_pages_le pagesA nxtA max_pages 0,
          pag_loop_all_ok pagesB nxtB hok max_pages 0, ?_⟩
  exact pag_loop_stop pagesC nxtC j max_pages 0 hj (by simpa using hstop)
    (fun m hm => by simpa using hpre m hm)

/-- Witness for C8: a run that never finds a next control, a run whose
next control always works (hits the 50-page ceiling) and a run whose
next-control search fails after the third page (stops at 3 pages). -/
theorem C8_witness :
    (_handle_pagination (fun _ => 0) (fun _ => NextOutcome.notFoundOrTimeout)).pagesDone
      ≤ 50 ∧
    (_handle_pagination (fun _ => 0) (fun _ => NextOutcome.ok)).pagesDone = 50 ∧
    (_handle_pagination (fun _ => 0)
        (fun i => if i < 2 then NextOutcome.ok else NextOutcome.notFoundOrTimeout)).pagesDone
      = 2 + 1 :=
  C8_pagination_terminates (fun _ => 0) (fun _ => 0) (fun _ => 0)
    (fun _ => NextOutcome.notFoundOrTimeout) (fun _ => NextOutcome.ok)
    (fun i => if i < 2 then NextOutcome.ok else NextOutcome.notFoundOrTimeout) 2
    (fun _ => rfl) (by omega) (by simp) (fun m hm => by simp [hm])
